import Mathlib

/-!
Verification development for the praisonai-testgen repository.

The definitions below are a shallow embedding of the analysis, generation
and pipeline code in `src/praisonai_testgen/tools.py` and
`src/praisonai_testgen/testgen.py`:

* a small Python AST model (`PyExpr`, `PyArg`, `PyStmt`) covering the node
  shapes the analyzed code inspects;
* `astWalk`, modelling `ast.walk` over statement nodes — CPython's `ast.walk`
  yields nodes in breadth-first order starting from the root `Module` node;
  we start from the module body (the root is neither a `FunctionDef` nor a
  `ClassDef`, so it never contributes an entry) and we enqueue only statement
  children (expression children contain no function or class definition nodes
  in this model, so they never contribute entries either);
* `parse_python_ast`, `generate_test_code`, `generate_direct` (the
  `TestGen._generate_direct` pipeline) translated statement by statement;
* `unparse` / `pyRepr`, modelling `ast.unparse` on the expression shapes of
  the model. `pyRepr` models CPython's `repr` for strings that need no
  character escaping: single quotes are preferred, double quotes are used
  exactly when the value contains a single quote and no double quote.

Filesystem and subprocess effects are made explicit: the sandbox runner
(`run_pytest_isolated`) is passed to the pipeline as a function from the
combined test source to a `SandboxOutcome`, which either returns a verdict
(the captured exit status and streams) or raises (spawn failure); a raised
outcome models the Python exception propagating to the `except Exception`
handler in `TestGen._generate_direct`.  Writing the output file
(`TestGen._write_tests`) is modelled by its pure content: the returned path,
or `none` when there is nothing to write.
-/

/-- The single-quote character `'` as a one-character string (used to build
the string literals that `ast.unparse` and the pipeline error messages
produce). -/
def apos : String := String.singleton (Char.ofNat 39)

/-- Python expression nodes, restricted to the shapes the analyzed code
distinguishes: constants (as used in annotations and default values),
names, attribute accesses and calls (as used by decorator extraction), and
an opaque `otherE` carrying its unparsed text for every other expression. -/
inductive PyExpr where
  | constStr (v : String)
  | constInt (n : Int)
  | constNone
  | nameE (id : String)
  | attributeE (value : PyExpr) (attr : String)
  | callE (func : PyExpr) (args : List PyExpr)
  | otherE (text : String)

/-- CPython `repr` of a string value, for values that need no character
escaping: single quotes unless the value contains a single quote and no
double quote. -/
def pyRepr (s : String) : String :=
  if s.data.contains (Char.ofNat 39) && !(s.data.contains (Char.ofNat 34)) then
    "\"" ++ s ++ "\""
  else
    apos ++ s ++ apos

mutual
/-- Models `ast.unparse` on the expression shapes of the model. -/
def unparse : PyExpr → String
  | .constStr v => pyRepr v
  | .constInt n => toString n
  | .constNone => "None"
  | .nameE id => id
  | .attributeE value attr => unparse value ++ "." ++ attr
  | .callE func args => unparse func ++ "(" ++ unparseList args ++ ")"
  | .otherE text => text

/-- Comma-separated unparsing of call arguments. -/
def unparseList : List PyExpr → String
  | [] => ""
  | [e] => unparse e
  | e :: rest => unparse e ++ ", " ++ unparseList rest
end

/-- Models `tools._get_decorator_name`: `Name` nodes yield their id,
`Attribute` nodes their attribute, `Call` nodes recurse into the called
entity, and everything else yields the empty string. -/
def get_decorator_name : PyExpr → String
  | .nameE id => id
  | .attributeE _ attr => attr
  | .callE func _ => get_decorator_name func
  | _ => ""

/-- One formal parameter of a Python function definition.  The `ann` field
models the node's `annotation` attribute. -/
structure PyArg where
  arg : String
  ann : Option PyExpr

/-- Python statement nodes, restricted to the shapes `parse_python_ast`
inspects.  The `docstring` field models `ast.get_docstring(node)`; the
`defaults` list is aligned to the end of `args` exactly as in the AST. -/
inductive PyStmt where
  | functionDef (name : String) (args : List PyArg) (defaults : List PyExpr)
      (body : List PyStmt) (decorator_list : List PyExpr)
      (returns : Option PyExpr) (docstring : Option String) (lineno : Nat)
  | classDef (name : String) (body : List PyStmt)
      (docstring : Option String) (lineno : Nat)
  | importStmt (names : List String)
  | importFrom (module : Option String)
  | otherStmt

mutual
/-- Size of a statement node (for termination of the AST walk). -/
def stmtSize : PyStmt → Nat
  | .functionDef _ _ _ body _ _ _ _ => 1 + stmtListSize body
  | .classDef _ body _ _ => 1 + stmtListSize body
  | _ => 1

/-- Total size of a list of statement nodes. -/
def stmtListSize : List PyStmt → Nat
  | [] => 0
  | s :: rest => stmtSize s + stmtListSize rest
end

/-- The statement children of a node, as enqueued by the walk: the body of
a function or class definition, nothing otherwise. -/
def childStmts : PyStmt → List PyStmt
  | .functionDef _ _ _ body _ _ _ _ => body
  | .classDef _ body _ _ => body
  | _ => []

/-- Models `ast.walk`: a queue-driven breadth-first traversal yielding every
node, each node's children being enqueued when the node is dequeued. -/
def astWalk : List PyStmt → List PyStmt
  | [] => []
  | s :: todo => s :: astWalk (todo ++ childStmts s)
termination_by l => stmtListSize l
decreasing_by
  have happ : ∀ a b : List PyStmt,
      stmtListSize (a ++ b) = stmtListSize a + stmtListSize b := by
    intro a b
    induction a with
    | nil => simp [stmtListSize]
    | cons x rest ih => simp [stmtListSize, ih]; omega
  have hlt : stmtListSize (childStmts s) < stmtSize s := by
    cases s <;> simp [childStmts, stmtSize, stmtListSize]
  simp [stmtListSize, happ]
  omega

/-- Per-function record built by `parse_python_ast` (the `func_info` dict).
Keys that the Python code adds only conditionally (`return_type`,
`arg_types`, `defaults`) are modelled as an `Option` or a possibly empty
association list: the generator reads them with `.get(...)` fallbacks, so an
absent key and the empty value are indistinguishable downstream. -/
structure FuncInfo where
  name : String
  args : List String
  lineno : Nat
  docstring : Option String
  is_private : Bool
  decorators : List String
  return_type : Option String
  arg_types : List (String × String)
  defaults : List (String × String)
deriving DecidableEq, Repr

/-- Per-method summary inside a class record. -/
structure MethodInfo where
  name : String
  args : List String
  is_private : Bool
deriving DecidableEq, Repr

/-- Per-class record built by `parse_python_ast` (the `class_info` dict). -/
structure ClassInfo where
  name : String
  lineno : Nat
  docstring : Option String
  methods : List MethodInfo
  is_private : Bool
deriving DecidableEq, Repr

/-- The dictionary returned by `parse_python_ast` (called `Module` in the
specification; named `PyModule` here to avoid clashing with Mathlib). -/
structure PyModule where
  file : String
  functions : List FuncInfo
  classes : List ClassInfo
  imports : List String
deriving DecidableEq, Repr

/-- Models Python `name.startswith("_")`: true exactly when the first
character is an underscore. -/
def startsWithUnderscore (name : String) : Bool :=
  match name.data with
  | [] => false
  | c :: _ => c = '_'

/-- The `func_info` record built for one `FunctionDef` node
(`tools.parse_python_ast`, lines 36-67): name, parameter names excluding
`self`, line number, docstring, privacy flag, decorator names, unparsed
return annotation, unparsed parameter annotations excluding `self`, and
unparsed default expressions aligned to the end of the parameter list,
excluding `self`. -/
def toFuncInfo : PyStmt → Option FuncInfo
  | .functionDef name args defaults _body decorator_list returns docstring lineno =>
    some
      { name := name
        args := (args.filter (fun a => a.arg ≠ "self")).map (fun a => a.arg)
        lineno := lineno
        docstring := docstring
        is_private := startsWithUnderscore name
        decorators := decorator_list.map get_decorator_name
        return_type := returns.map unparse
        arg_types := args.filterMap (fun a =>
          if a.arg = "self" then none
          else a.ann.map (fun e => (a.arg, unparse e)))
        defaults :=
          ((if defaults.isEmpty then []
            else args.drop (args.length - defaults.length)).zip defaults).filterMap
            (fun p => if p.1.arg = "self" then none
              else some (p.1.arg, unparse p.2)) }
  | _ => none

/-- The shallow method summary built for a direct `FunctionDef` item of a
class body (`tools.parse_python_ast`, lines 78-84). -/
def toMethodInfo : PyStmt → Option MethodInfo
  | .functionDef name args _ _ _ _ _ _ =>
    some
      { name := name
        args := (args.filter (fun a => a.arg ≠ "self")).map (fun a => a.arg)
        is_private := startsWithUnderscore name }
  | _ => none

/-- The `class_info` record built for one `ClassDef` node
(`tools.parse_python_ast`, lines 69-86): only direct methods are
summarized. -/
def toClassInfo : PyStmt → Option ClassInfo
  | .classDef name body docstring lineno =>
    some
      { name := name
        lineno := lineno
        docstring := docstring
        methods := body.filterMap toMethodInfo
        is_private := startsWithUnderscore name }
  | _ => none

/-- Import names contributed by one node (`tools._extract_imports`): every
alias of an `Import` node, and the module of an `ImportFrom` node when that
module is present and non-empty (the Python code tests its truthiness). -/
def importsOf : PyStmt → List String
  | .importStmt names => names
  | .importFrom (some m) => if m = "" then [] else [m]
  | _ => []

/-- Models `tools._extract_imports` over an already walked node list. -/
def extract_imports (nodes : List PyStmt) : List String :=
  (nodes.map importsOf).flatten

/-- Models `tools.parse_python_ast` given the parsed statement tree of the
file: walk every node, collecting a `func_info` for every `FunctionDef`
encountered (wherever it is nested) and a `class_info` for every
`ClassDef`, plus the imports. -/
def parse_python_ast (file_path : String) (tree : List PyStmt) : PyModule :=
  let nodes := astWalk tree
  { file := file_path
    functions := nodes.filterMap toFuncInfo
    classes := nodes.filterMap toClassInfo
    imports := extract_imports nodes }

/-- Python truthiness of an optional string (`if default:` /
`if function_name:`): false for an absent value and for the empty string. -/
def truthyOpt : Option String → Bool
  | some s => !(s = "")
  | none => false

/-- The sample value synthesized for one parameter
(`tools.generate_test_code`, lines 207-227): the stored default when it is
present and truthy, otherwise a placeholder dispatched on the recorded type
label, defaulting to `None`. -/
def sample_value (arg_types defaults : List (String × String)) (arg : String) : String :=
  let arg_type := (arg_types.lookup arg).getD ""
  let dflt := defaults.lookup arg
  if truthyOpt dflt then dflt.getD ""
  else if arg_type = "int" then "1"
  else if arg_type = "float" then "1.0"
  else if arg_type = "str" then "\"test\""
  else if arg_type = "bool" then "True"
  else if arg_type = "list" then "[]"
  else if arg_type = "dict" then "\x7b\x7d"
  else "None"

/-- Models `tools.generate_test_code` (lines 189-270).  The Python code
first fills a `sample_values` dict with one entry per parameter and then
reads it back while joining the assignment lines; since the dict is keyed by
the very same parameter list, this is the direct per-parameter map used
here.  The basic Arrange/Act/Assert block is rendered unconditionally; when
the recorded `arg_types` mapping is non-empty the edge-case block is
appended, its commentary lines accumulated in type order by the loop over
`arg_types.items()`. -/
def generate_test_code (fi : FuncInfo) : String :=
  let name := fi.name
  let args := fi.args
  let arg_types := fi.arg_types
  let defaults := fi.defaults
  let arg_assignments := String.intercalate "\n    "
    (args.map (fun arg => arg ++ " = " ++ sample_value arg_types defaults arg))
  let call_args := String.intercalate ", " args
  let test_code :=
    "def test_" ++ name ++ "_basic():\n" ++
    "    \"\"\"Test " ++ name ++ " with basic inputs.\"\"\"\n" ++
    "    # Arrange\n" ++
    "    " ++ (if arg_assignments = "" then "pass  # No arguments" else arg_assignments) ++
    "\n" ++
    "    \n" ++
    "    # Act\n" ++
    "    result = " ++ name ++ "(" ++ call_args ++ ")\n" ++
    "    \n" ++
    "    # Assert\n" ++
    "    assert result is not None  # Basic assertion - replace with specific checks\n"
  if arg_types.isEmpty then test_code
  else
    let edge_start :=
      "\n\ndef test_" ++ name ++ "_edge_cases():\n" ++
      "    \"\"\"Test " ++ name ++ " edge cases.\"\"\"\n" ++
      "    # Test with edge values based on types\n"
    let edge_mid := arg_types.foldl (fun acc p =>
      acc ++
        (if p.2 = "int" then "    # " ++ p.1 ++ ": test with 0, negative, large values\n"
         else if p.2 = "str" then "    # " ++ p.1 ++ ": test with empty string, whitespace\n"
         else if p.2 = "list" then "    # " ++ p.1 ++ ": test with empty list, single item\n"
         else "")) edge_start
    test_code ++ edge_mid ++ "    assert True  # TODO: implement edge case tests\n"

/-- Result record of one pipeline invocation (`testgen.GenerationResult`).
The `coverage` and `validation_score` fields of the Python dataclass are
never set by `_generate_direct` and are not modelled. -/
structure GenerationResult where
  success : Bool
  tests : List String
  test_file : Option String
  errors : List String
deriving DecidableEq, Repr

/-- Outcome of invoking the sandbox runner (`tools.run_pytest_isolated`):
either the captured verdict of the child process, or a raised exception
(spawn failure such as a missing executable) carrying its message. -/
inductive SandboxOutcome where
  | verdict (passed : Bool) (exit_code : Int) (stdout stderr : String)
  | raised (msg : String)

/-- Models `pathlib.Path(p).stem` for ordinary file names: the last `/`
component without its final extension. -/
def pathStem (p : String) : String :=
  let base := ((p.splitOn "/").getLast?).getD p
  let parts := base.splitOn "."
  if parts.length ≤ 1 then base else String.intercalate "." parts.dropLast

/-- Models `TestGen._write_tests` by its observable result: `none` (nothing
written) when the test list is empty, otherwise the path
`<output_dir>/test_<stem>.py` of the written file. -/
def write_tests (tests : List String) (source_file : String) (output_dir : String) :
    Option String :=
  if tests.isEmpty then none
  else some (output_dir ++ "/test_" ++ pathStem source_file ++ ".py")

/-- Step 2 of `TestGen._generate_direct`: narrow to the requested function
name when one was given (Python tests the name's truthiness, so an empty
requested name leaves the list untouched). -/
def select_functions (functions : List FuncInfo) (function_name : Option String) :
    List FuncInfo :=
  if truthyOpt function_name then
    functions.filter (fun f => f.name = function_name.getD "")
  else functions

/-- Step 3 of `TestGen._generate_direct` (lines 117-124): generate one test
per remaining function, skipping private ones. -/
def render_tests (functions : List FuncInfo) : List String :=
  (functions.filter (fun f => !f.is_private)).map generate_test_code

/-- Models `TestGen._generate_direct` given the parsed module.  The sandbox
runner is passed in as a function of the combined test source; a `raised`
outcome models the Python exception propagating from
`run_pytest_isolated` to the `except Exception` handler, which returns a
failed result holding only the exception message (the `tests` field keeps
its dataclass default, the empty list).  A returned verdict — passing or
failing — is inspected and discarded (lines 133-135: the generated tests
are kept either way). -/
def generate_direct (parsed : PyModule) (function_name : Option String)
    (output_dir : String) (sandbox : String → SandboxOutcome) : GenerationResult :=
  if parsed.functions.isEmpty && parsed.classes.isEmpty then
    { success := false, tests := [], test_file := none,
      errors := ["No testable functions or classes found"] }
  else
    let functions := select_functions parsed.functions function_name
    if truthyOpt function_name && functions.isEmpty then
      { success := false, tests := [], test_file := none,
        errors := ["Function " ++ apos ++ function_name.getD "" ++ apos ++ " not found"] }
    else
      let tests := render_tests functions
      let launch_failure : Option String :=
        if tests.isEmpty then none
        else
          match sandbox ("import pytest\n\n" ++ String.intercalate "\n\n" tests) with
          | .raised msg => some msg
          | .verdict _ _ _ _ => none
      match launch_failure with
      | some msg =>
        { success := false, tests := [], test_file := none, errors := [msg] }
      | none =>
        { success := true, tests := tests,
          test_file := write_tests tests parsed.file output_dir, errors := [] }

/-- Concatenation of a list of strings (specification-side helper used to
state what the edge-case loop accumulates). -/
def concatStrings : List String → String
  | [] => ""
  | s :: rest => s ++ concatStrings rest

/-- Specification-side rendering of the basic Arrange/Act/Assert test block
for one signature: one assignment per parameter in declared order (or the
no-op placeholder when there are none), a call with the same names in the
same order, and the non-emptiness assertion. -/
def spec_basic_test (fi : FuncInfo) : String :=
  let arrange := String.intercalate "\n    "
    (fi.args.map (fun arg => arg ++ " = " ++ sample_value fi.arg_types fi.defaults arg))
  "def test_" ++ fi.name ++ "_basic():\n" ++
  "    \"\"\"Test " ++ fi.name ++ " with basic inputs.\"\"\"\n" ++
  "    # Arrange\n" ++
  "    " ++ (if arrange = "" then "pass  # No arguments" else arrange) ++ "\n" ++
  "    \n" ++
  "    # Act\n" ++
  "    result = " ++ fi.name ++ "(" ++ String.intercalate ", " fi.args ++ ")\n" ++
  "    \n" ++
  "    # Assert\n" ++
  "    assert result is not None  # Basic assertion - replace with specific checks\n"

/-- Commentary line contributed by one observed parameter type to the
edge-case block: only the labels `int`, `str` and `list` contribute a line;
every other label (including `float`, `bool` and `dict`) contributes
nothing. -/
def spec_edge_line (p : String × String) : String :=
  if p.2 = "int" then "    # " ++ p.1 ++ ": test with 0, negative, large values\n"
  else if p.2 = "str" then "    # " ++ p.1 ++ ": test with empty string, whitespace\n"
  else if p.2 = "list" then "    # " ++ p.1 ++ ": test with empty list, single item\n"
  else ""

/-- Specification-side rendering of the edge-case test block: the distinctly
named header, the commentary lines accumulated over `arg_types` in order,
and the placeholder assertion. -/
def spec_edge_block (fi : FuncInfo) : String :=
  "\n\ndef test_" ++ fi.name ++ "_edge_cases():\n" ++
  "    \"\"\"Test " ++ fi.name ++ " edge cases.\"\"\"\n" ++
  "    # Test with edge values based on types\n" ++
  concatStrings (fi.arg_types.map spec_edge_line) ++
  "    assert True  # TODO: implement edge case tests\n"

/-- A sandbox behaviour whose runner spawns fine and reports success. -/
def sandboxOK : String → SandboxOutcome :=
  fun _ => .verdict true 0 "" ""

/-- The statement tree of the source `class Calculator:` with the single
method `def add(self, a, b): ...` — the smallest input on which the
double-counting behaviour of `ast.walk` shows. -/
def calcTree : List PyStmt :=
  [ .classDef "Calculator"
      [ .functionDef "add" [⟨"self", none⟩, ⟨"a", none⟩, ⟨"b", none⟩] []
          [.otherStmt] [] none none 5 ]
      (some "A simple calculator.") 2 ]

/-- The statement tree of the source
`def greet(name: str = "World") -> str: ...` — note the default literal is
written with double quotes in the source. -/
def greetTree : List PyStmt :=
  [ .functionDef "greet" [⟨"name", some (.nameE "str")⟩] [.constStr "World"]
      [.otherStmt] [] (some (.nameE "str")) (some "Greet someone.") 2 ]

/-- The statement tree of the source `def add(a: int, b: int) -> int: ...`. -/
def addTree : List PyStmt :=
  [ .functionDef "add"
      [⟨"a", some (.nameE "int")⟩, ⟨"b", some (.nameE "int")⟩] []
      [.otherStmt] [] (some (.nameE "int")) (some "Add two numbers.") 2 ]

/-- The statement tree of the source `def f(x: float): ...`. -/
def floatTree : List PyStmt :=
  [ .functionDef "f" [⟨"x", some (.nameE "float")⟩] []
      [.otherStmt] [] none none 1 ]

/-- The `func_info` record `parse_python_ast` yields for
`def f(x: float): ...` (see `floatFi_from_parse`): one parameter with the
explicit numeric type label `float` and no default. -/
def floatFi : FuncInfo :=
  { name := "f", args := ["x"], lineno := 1, docstring := none,
    is_private := false, decorators := [], return_type := none,
    arg_types := [("x", "float")], defaults := [] }

/-- A public signature used by the pipeline-level witnesses. -/
def pubFi : FuncInfo :=
  { name := "add", args := ["a", "b"], lineno := 2,
    docstring := some "Add two numbers.", is_private := false,
    decorators := [], return_type := some "int",
    arg_types := [("a", "int"), ("b", "int")], defaults := [] }

/-- A private signature (leading-underscore name, `is_private` set) used by
the pipeline-level witnesses. -/
def privFi : FuncInfo :=
  { name := "_helper", args := ["x"], lineno := 9, docstring := none,
    is_private := true, decorators := [], return_type := none,
    arg_types := [], defaults := [] }

/-- A parsed module holding one public and one private function. -/
def modPub : PyModule :=
  { file := "calculator.py", functions := [pubFi, privFi], classes := [],
    imports := [] }

/-- A zero-parameter signature used by the zero-parameter witness. -/
def noArgsFi : FuncInfo :=
  { name := "ping", args := [], lineno := 1, docstring := some "Ping.",
    is_private := false, decorators := [], return_type := none,
    arg_types := [], defaults := [] }

/-- Two signatures agreeing on name, parameters, types and defaults but
differing in docstring, line number, decorators and return annotation. -/
def detFiA : FuncInfo :=
  { name := "mul", args := ["x", "y"], lineno := 3,
    docstring := some "Multiply.", is_private := false,
    decorators := ["staticmethod"], return_type := some "int",
    arg_types := [("x", "int"), ("y", "int")], defaults := [("y", "2")] }

/-- Companion of `detFiA`: same four generator-relevant fields, everything
else different. -/
def detFiB : FuncInfo :=
  { name := "mul", args := ["x", "y"], lineno := 42, docstring := none,
    is_private := false, decorators := [], return_type := none,
    arg_types := [("x", "int"), ("y", "int")], defaults := [("y", "2")] }

/-- The message of the `FileNotFoundError` raised when the `pytest`
executable cannot be spawned. -/
def spawnFailureMsg : String :=
  "[Errno 2] No such file or directory: " ++ apos ++ "pytest" ++ apos

/-- The `func_info` record `parse_python_ast` yields for
`def greet(name: str = "World") -> str: ...`: the stored default literal is
the unparsed text of the default expression — single-quoted, not the
double-quoted spelling of the source. -/
def greetFi : FuncInfo :=
  { name := "greet", args := ["name"], lineno := 2,
    docstring := some "Greet someone.", is_private := false, decorators := [],
    return_type := some "str", arg_types := [("name", "str")],
    defaults := [("name", apos ++ "World" ++ apos)] }

/-- The statement tree of a source file defining only the private function
`def _hidden(): ...`. -/
def privTree : List PyStmt :=
  [ .functionDef "_hidden" [] [] [.otherStmt] [] none none 1 ]

/-- The `func_info` record `parse_python_ast` yields for
`def _hidden(): ...`. -/
def hiddenFi : FuncInfo :=
  { name := "_hidden", args := [], lineno := 1, docstring := none,
    is_private := true, decorators := [], return_type := none,
    arg_types := [], defaults := [] }

/-- The module `parse_python_ast` yields for the source file holding only
`def add(a: int, b: int) -> int: ...`. -/
def addModule : PyModule :=
  { file := "calculator.py", functions := [pubFi], classes := [],
    imports := [] }

/-- The statement tree of the source
`def method(a: int, self: int = 5): ...` — a module-level function with a
parameter literally named `self` in non-leading, defaulted position. -/
def selfTree : List PyStmt :=
  [ .functionDef "method"
      [⟨"a", some (.nameE "int")⟩, ⟨"self", some (.nameE "int")⟩]
      [.constInt 5] [.otherStmt] [] none none 1 ]

/-- The `func_info` record `parse_python_ast` yields for `selfTree`: the
`self` parameter is absent from the parameter list, the type mapping and
the defaults mapping (its default `5` is dropped with it). -/
def selfFi : FuncInfo :=
  { name := "method", args := ["a"], lineno := 1, docstring := none,
    is_private := false, decorators := [], return_type := none,
    arg_types := [("a", "int")], defaults := [] }

/-- The method summary of `add` inside the `Calculator` class record. -/
def calcMethodAdd : MethodInfo :=
  { name := "add", args := ["a", "b"], is_private := false }

/-- The class record `parse_python_ast` yields for the `Calculator`
example. -/
def calcClassInfo : ClassInfo :=
  { name := "Calculator", lineno := 2,
    docstring := some "A simple calculator.",
    methods := [calcMethodAdd], is_private := false }

/-! Helper lemmas about the AST walk. -/

theorem stmtListSize_append (a b : List PyStmt) :
    stmtListSize (a ++ b) = stmtListSize a + stmtListSize b := by
  induction a with
  | nil => simp [stmtListSize]
  | cons s rest ih => simp [stmtListSize, ih]; omega

theorem childStmts_size_lt (s : PyStmt) :
    stmtListSize (childStmts s) < stmtSize s := by
  cases s <;> simp [childStmts, stmtSize, stmtListSize]

theorem stmtSize_pos (s : PyStmt) : 1 ≤ stmtSize s := by
  cases s <;> simp [stmtSize]

theorem astWalk_nil : astWalk [] = [] := by
  rw [astWalk]

theorem astWalk_cons (s : PyStmt) (todo : List PyStmt) :
    astWalk (s :: todo) = s :: astWalk (todo ++ childStmts s) := by
  rw [astWalk]

/-- Every node of the pending queue is yielded by the walk. -/
theorem mem_astWalk_of_mem (todo : List PyStmt) (s : PyStmt) (h : s ∈ todo) :
    s ∈ astWalk todo := by
  have main : ∀ n (todo : List PyStmt), stmtListSize todo ≤ n →
      ∀ s ∈ todo, s ∈ astWalk todo := by
    intro n
    induction n with
    | zero =>
      intro todo hle s hs
      cases todo with
      | nil => cases hs
      | cons t rest =>
        exfalso
        have h1 := stmtSize_pos t
        simp [stmtListSize] at hle
        omega
    | succ n ih =>
      intro todo hle s hs
      cases todo with
      | nil => cases hs
      | cons t rest =>
        rw [astWalk_cons]
        rcases List.mem_cons.mp hs with h1 | h1
        · exact h1 ▸ List.mem_cons_self t _
        · apply List.mem_cons_of_mem
          apply ih (rest ++ childStmts t) ?_ s (List.mem_append_left _ h1)
          have h2 := childStmts_size_lt t
          rw [stmtListSize_append]
          simp [stmtListSize] at hle
          omega
  exact main (stmtListSize todo) todo le_rfl s h

/-- Every statement child of a yielded node is itself yielded by the walk
(this is what makes `ast.walk` visit class bodies and nested functions). -/
theorem childStmts_mem_astWalk (todo : List PyStmt) (s : PyStmt)
    (h : s ∈ astWalk todo) (c : PyStmt) (hc : c ∈ childStmts s) :
    c ∈ astWalk todo := by
  have main : ∀ n (todo : List PyStmt), stmtListSize todo ≤ n →
      ∀ s ∈ astWalk todo, ∀ c ∈ childStmts s, c ∈ astWalk todo := by
    intro n
    induction n with
    | zero =>
      intro todo hle s hs c hc
      cases todo with
      | nil => rw [astWalk_nil] at hs; cases hs
      | cons t rest =>
        exfalso
        have h1 := stmtSize_pos t
        simp [stmtListSize] at hle
        omega
    | succ n ih =>
      intro todo hle s hs c hc
      cases todo with
      | nil => rw [astWalk_nil] at hs; cases hs
      | cons t rest =>
        rw [astWalk_cons] at hs ⊢
        rcases List.mem_cons.mp hs with h1 | h1
        · subst h1
          apply List.mem_cons_of_mem
          exact mem_astWalk_of_mem _ _ (List.mem_append_right _ hc)
        · apply List.mem_cons_of_mem
          have hsz : stmtListSize (rest ++ childStmts t) ≤ n := by
            have h2 := childStmts_size_lt t
            rw [stmtListSize_append]
            simp [stmtListSize] at hle
            omega
          exact ih (rest ++ childStmts t) hsz s h1 c hc
  exact main (stmtListSize todo) todo le_rfl s h c hc

/-! Helper lemmas about the generator. -/

theorem foldl_append_concat {α : Type} (f : α → String) (l : List α) (init : String) :
    l.foldl (fun acc p => acc ++ f p) init = init ++ concatStrings (l.map f) := by
  induction l generalizing init with
  | nil => simp [concatStrings, String.append_empty]
  | cons p rest ih =>
    simp only [List.foldl_cons, List.map_cons, concatStrings, ih,
      String.append_assoc]

/-- Structure of the generator output: the basic block, followed by the
edge-case block exactly when the signature carries at least one recorded
parameter type label. -/
theorem generate_test_code_structure (fi : FuncInfo) :
    generate_test_code fi =
      spec_basic_test fi ++
        (if fi.arg_types.isEmpty then "" else spec_edge_block fi) := by
  unfold generate_test_code spec_basic_test spec_edge_block
  cases h : fi.arg_types.isEmpty with
  | true => simp only [h, if_true, String.append_empty]
  | false =>
    simp only [h, Bool.false_eq_true, if_false]
    rw [foldl_append_concat (fun p : String × String =>
      (if p.2 = "int" then "    # " ++ p.1 ++ ": test with 0, negative, large values\n"
       else if p.2 = "str" then "    # " ++ p.1 ++ ": test with empty string, whitespace\n"
       else if p.2 = "list" then "    # " ++ p.1 ++ ": test with empty list, single item\n"
       else ""))]
    rw [show (fun p : String × String =>
      (if p.2 = "int" then "    # " ++ p.1 ++ ": test with 0, negative, large values\n"
       else if p.2 = "str" then "    # " ++ p.1 ++ ": test with empty string, whitespace\n"
       else if p.2 = "list" then "    # " ++ p.1 ++ ": test with empty list, single item\n"
       else "")) = spec_edge_line from rfl]
    simp only [String.append_assoc]

/-- C8: test-code generation is deterministic and depends only on the
signature content the generator reads — any two signatures agreeing on
name, parameter order, type labels and defaults produce byte-identical
output (in particular, re-invoking it on the same signature does): the
output is a pure function of these fields, with no timestamp or random
source. -/
theorem c8_generation_deterministic (f g : FuncInfo)
    (hn : f.name = g.name) (ha : f.args = g.args)
    (ht : f.arg_types = g.arg_types) (hd : f.defaults = g.defaults) :
    generate_test_code f = generate_test_code g := by
  unfold generate_test_code
  rw [hn, ha, ht, hd]

/-- Witness for C8: two signatures differing in docstring, line number,
decorators and return annotation — but agreeing on the four fields the
generator reads — produce identical output. -/
theorem c8_generation_deterministic_witness :
    generate_test_code detFiA = generate_test_code detFiB :=
  c8_generation_deterministic detFiA detFiB rfl rfl rfl rfl

/-- C3 (amended): the synthesized sample value for a parameter with a
stored (non-empty) default literal is that stored literal itself — the
unparsed text of the default expression — taking precedence over every
type-driven placeholder. -/
theorem c3_default_used_verbatim (fi : FuncInfo) (arg d : String)
    (h : fi.defaults.lookup arg = some d) (hd : d ≠ "") :
    sample_value fi.arg_types fi.defaults arg = d := by
  simp only [sample_value]
  rw [h]
  simp [truthyOpt, hd]

/-- Witness for C3: the signature of `def greet(name: str = "World")` has
the stored default, and the synthesized value equals it (not the `str`
placeholder). -/
theorem c3_default_used_verbatim_witness :
    greetFi.defaults.lookup "name" = some (apos ++ "World" ++ apos)
    ∧ apos ++ "World" ++ apos ≠ ""
    ∧ sample_value greetFi.arg_types greetFi.defaults "name"
        = apos ++ "World" ++ apos :=
  ⟨by decide, by decide,
    c3_default_used_verbatim greetFi "name" (apos ++ "World" ++ apos)
      (by decide) (by decide)⟩

set_option maxRecDepth 10000 in
/-- C3 counterexample: for the source `def greet(name: str = "World") -> str`
the default is written `"World"` (double quotes) in the source, but the
stored default — and hence the synthesized sample value — is the re-serialized
text `'World'` (single quotes): the value is not character-for-character the
default as written in the source. -/
theorem c3_counterexample :
    ((parse_python_ast "greet.py" greetTree).functions.map
        (fun f => sample_value f.arg_types f.defaults "name"))
      = [apos ++ "World" ++ apos]
    ∧ apos ++ "World" ++ apos ≠ "\"World\"" := by
  have hp : (parse_python_ast "greet.py" greetTree).functions = [greetFi] := by
    simp [parse_python_ast, greetTree, astWalk, childStmts, toFuncInfo,
      extract_imports, importsOf, unparse, pyRepr, startsWithUnderscore, greetFi]
  refine ⟨?_, by decide⟩
  rw [hp]
  decide

/-- C5: a successfully parsed module with zero functions and zero classes
makes the pipeline fail with zero tests, no output file, and the
no-testable-units error message. -/
theorem c5_no_testable_units (parsed : PyModule) (function_name : Option String)
    (output_dir : String) (sandbox : String → SandboxOutcome)
    (hf : parsed.functions = []) (hc : parsed.classes = []) :
    generate_direct parsed function_name output_dir sandbox =
      { success := false, tests := [], test_file := none,
        errors := ["No testable functions or classes found"] } := by
  unfold generate_direct
  rw [hf, hc]
  rfl

/-- Witness for C5: parsing a file with a single non-definition statement
yields an empty structural model, and the pipeline run on it fails with the
no-testable-units message. -/
theorem c5_no_testable_units_witness :
    (parse_python_ast "empty.py" [PyStmt.otherStmt]).functions = []
    ∧ (parse_python_ast "empty.py" [PyStmt.otherStmt]).classes = []
    ∧ generate_direct (parse_python_ast "empty.py" [PyStmt.otherStmt]) none
        "tests" sandboxOK =
      { success := false, tests := [], test_file := none,
        errors := ["No testable functions or classes found"] } := by
  have h1 : (parse_python_ast "empty.py" [PyStmt.otherStmt]).functions = [] := by
    simp [parse_python_ast, astWalk, childStmts, toFuncInfo]
  have h2 : (parse_python_ast "empty.py" [PyStmt.otherStmt]).classes = [] := by
    simp [parse_python_ast, astWalk, childStmts, toClassInfo]
  exact ⟨h1, h2, c5_no_testable_units _ none "tests" sandboxOK h1 h2⟩

/-- C7: when the parsed module has testable units but every function is
filtered out by the visibility rule alone (all private), the pipeline
reports success with an empty test list, no output file and no errors —
distinct from the zero-units failure. -/
theorem c7_all_private_empty_success (parsed : PyModule)
    (output_dir : String) (sandbox : String → SandboxOutcome)
    (hne : parsed.functions ≠ [] ∨ parsed.classes ≠ [])
    (hpriv : ∀ f ∈ parsed.functions, f.is_private = true) :
    generate_direct parsed none output_dir sandbox =
      { success := true, tests := [], test_file := none, errors := [] } := by
  have hrt : render_tests parsed.functions = [] := by
    unfold render_tests
    have hfe : parsed.functions.filter (fun f => !f.is_private) = [] := by
      rw [List.filter_eq_nil_iff]
      intro f hf
      simp [hpriv f hf]
    rw [hfe]
    rfl
  have hcond : (parsed.functions.isEmpty && parsed.classes.isEmpty) = false := by
    rcases hne with h | h <;> cases hh : parsed.functions <;>
      cases hh2 : parsed.classes <;> simp_all
  unfold generate_direct
  rw [hcond]
  simp [select_functions, truthyOpt, hrt, write_tests]

/-- Witness for C7: a module defining only the private `_hidden` function
runs to success with an empty test list and no output file. -/
theorem c7_all_private_empty_success_witness :
    ((parse_python_ast "m.py" privTree).functions ≠ []
      ∨ (parse_python_ast "m.py" privTree).classes ≠ [])
    ∧ (∀ f ∈ (parse_python_ast "m.py" privTree).functions, f.is_private = true)
    ∧ generate_direct (parse_python_ast "m.py" privTree) none "tests" sandboxOK =
        { success := true, tests := [], test_file := none, errors := [] } := by
  have hm : (parse_python_ast "m.py" privTree).functions = [hiddenFi] := by
    simp [parse_python_ast, privTree, astWalk, childStmts, toFuncInfo,
      extract_imports, importsOf, startsWithUnderscore, hiddenFi]
  have hne : (parse_python_ast "m.py" privTree).functions ≠ []
      ∨ (parse_python_ast "m.py" privTree).classes ≠ [] := by
    left; rw [hm]; simp
  have hpriv : ∀ f ∈ (parse_python_ast "m.py" privTree).functions,
      f.is_private = true := by
    rw [hm]
    intro f hf
    rw [List.mem_singleton] at hf
    subst hf
    rfl
  exact ⟨hne, hpriv,
    c7_all_private_empty_success _ "tests" sandboxOK hne hpriv⟩

/-- C2 (amended): when the sandbox runner cannot be spawned during the
validation step, the raised exception propagates to the pipeline's
catch-all handler and the whole invocation returns a failed result with an
empty test list and the spawn error recorded — the launch failure is fatal
for the entire invocation, not just for validation. -/
theorem c2_spawn_failure_fails_run (parsed : PyModule)
    (function_name : Option String) (output_dir : String) (msg : String)
    (h1 : (parsed.functions.isEmpty && parsed.classes.isEmpty) = false)
    (h2 : (truthyOpt function_name &&
      (select_functions parsed.functions function_name).isEmpty) = false)
    (h3 : render_tests (select_functions parsed.functions function_name) ≠ []) :
    generate_direct parsed function_name output_dir (fun _ => .raised msg) =
      { success := false, tests := [], test_file := none, errors := [msg] } := by
  have h4 : (render_tests (select_functions parsed.functions function_name)).isEmpty
      = false := by
    cases hre : render_tests (select_functions parsed.functions function_name) with
    | nil => exact absurd hre h3
    | cons a b => rfl
  simp only [generate_direct, h1, h2, h4, Bool.false_eq_true, if_false]

set_option maxRecDepth 10000 in
/-- C2 counterexample: for a source with one public function, a sandbox
spawn failure (missing `pytest` executable) makes the invocation return
failure with an empty test list — not the claimed success carrying the
generated tests. -/
theorem c2_counterexample :
    generate_direct (parse_python_ast "calculator.py" addTree) none "tests"
        (fun _ => .raised spawnFailureMsg) =
      { success := false, tests := [], test_file := none,
        errors := [spawnFailureMsg] } := by
  have hm : parse_python_ast "calculator.py" addTree = addModule := by
    simp [parse_python_ast, addTree, astWalk, childStmts, toFuncInfo, toClassInfo,
      extract_imports, importsOf, unparse, startsWithUnderscore, addModule, pubFi]
  rw [hm]
  decide

set_option maxRecDepth 10000 in
/-- Witness for C2 (amended): the concrete one-public-function module run
with a raising sandbox yields the failed result with the spawn message. -/
theorem c2_spawn_failure_fails_run_witness :
    (addModule.functions.isEmpty && addModule.classes.isEmpty) = false
    ∧ (truthyOpt none && (select_functions addModule.functions none).isEmpty) = false
    ∧ render_tests (select_functions addModule.functions none) ≠ []
    ∧ generate_direct addModule none "tests" (fun _ => .raised "boom") =
        { success := false, tests := [], test_file := none, errors := ["boom"] } :=
  ⟨by decide, by decide, by decide,
    c2_spawn_failure_fails_run addModule none "tests" "boom"
      (by decide) (by decide) (by decide)⟩

/-- C4: every test string in the pipeline result was generated from a
non-private signature of the parsed module — private signatures contribute
no artifact to the generated output. -/
theorem c4_no_private_in_output (parsed : PyModule) (function_name : Option String)
    (output_dir : String) (sandbox : String → SandboxOutcome) (t : String)
    (ht : t ∈ (generate_direct parsed function_name output_dir sandbox).tests) :
    ∃ f ∈ parsed.functions, f.is_private = false ∧ t = generate_test_code f := by
  simp only [generate_direct] at ht
  split at ht
  · simp at ht
  · split at ht
    · simp at ht
    · split at ht
      · simp at ht
      · simp only at ht
        unfold render_tests at ht
        rcases List.mem_map.mp ht with ⟨f, hf, hgen⟩
        have hf2 := List.mem_filter.mp hf
        refine ⟨f, ?_, ?_, hgen.symm⟩
        · have hsel := hf2.1
          unfold select_functions at hsel
          split at hsel
          · exact (List.mem_filter.mp hsel).1
          · exact hsel
        · simpa using hf2.2

set_option maxRecDepth 10000 in
/-- Witness for C4: on a module holding one public and one private
function, the public function's generated test is in the pipeline output,
and the theorem locates its non-private origin. -/
theorem c4_no_private_in_output_witness :
    (generate_test_code pubFi ∈ (generate_direct modPub none "tests" sandboxOK).tests)
    ∧ ∃ f ∈ modPub.functions, f.is_private = false
        ∧ generate_test_code pubFi = generate_test_code f := by
  have hmem : generate_test_code pubFi ∈
      (generate_direct modPub none "tests" sandboxOK).tests := by decide
  exact ⟨hmem, c4_no_private_in_output modPub none "tests" sandboxOK _ hmem⟩

/-- C10: for a zero-parameter signature the basic test block is still
well-formed — the Arrange block holds the no-op placeholder
`pass  # No arguments` instead of assignments, and the Act block calls the
unit with an empty argument list. -/
theorem c10_no_args_wellformed (fi : FuncInfo) (h : fi.args = []) :
    generate_test_code fi =
      "def test_" ++ fi.name ++ "_basic():\n" ++
      "    \"\"\"Test " ++ fi.name ++ " with basic inputs.\"\"\"\n" ++
      "    # Arrange\n" ++
      "    " ++ "pass  # No arguments" ++ "\n" ++
      "    \n" ++
      "    # Act\n" ++
      "    result = " ++ fi.name ++ "(" ++ "" ++ ")\n" ++
      "    \n" ++
      "    # Assert\n" ++
      "    assert result is not None  # Basic assertion - replace with specific checks\n"
      ++ (if fi.arg_types.isEmpty then "" else spec_edge_block fi) := by
  have hbasic : spec_basic_test fi =
      "def test_" ++ fi.name ++ "_basic():\n" ++
      "    \"\"\"Test " ++ fi.name ++ " with basic inputs.\"\"\"\n" ++
      "    # Arrange\n" ++
      "    " ++ "pass  # No arguments" ++ "\n" ++
      "    \n" ++
      "    # Act\n" ++
      "    result = " ++ fi.name ++ "(" ++ "" ++ ")\n" ++
      "    \n" ++
      "    # Assert\n" ++
      "    assert result is not None  # Basic assertion - replace with specific checks\n" := by
    simp only [spec_basic_test]
    rw [h]
    rw [List.map_nil]
    rw [show String.intercalate "\n    " ([] : List String) = "" from rfl]
    rw [show String.intercalate ", " ([] : List String) = "" from rfl]
    rw [if_pos rfl]
  rw [generate_test_code_structure, hbasic]

/-- Witness for C10: the zero-parameter signature `ping` renders the
placeholder Arrange block and the empty-argument call. -/
theorem c10_no_args_wellformed_witness :
    noArgsFi.args = []
    ∧ generate_test_code noArgsFi =
      "def test_" ++ noArgsFi.name ++ "_basic():\n" ++
      "    \"\"\"Test " ++ noArgsFi.name ++ " with basic inputs.\"\"\"\n" ++
      "    # Arrange\n" ++
      "    " ++ "pass  # No arguments" ++ "\n" ++
      "    \n" ++
      "    # Act\n" ++
      "    result = " ++ noArgsFi.name ++ "(" ++ "" ++ ")\n" ++
      "    \n" ++
      "    # Assert\n" ++
      "    assert result is not None  # Basic assertion - replace with specific checks\n"
      ++ (if noArgsFi.arg_types.isEmpty then "" else spec_edge_block noArgsFi) :=
  ⟨rfl, c10_no_args_wellformed noArgsFi rfl⟩

/-- C9: for every function record the analyzer produces — module-level
functions included — no parameter named `self` appears in the recorded
parameter list, the type mapping or the defaults mapping, whatever its
position was. -/
theorem c9_self_excluded (file_path : String) (tree : List PyStmt) (f : FuncInfo)
    (hf : f ∈ (parse_python_ast file_path tree).functions) :
    "self" ∉ f.args
    ∧ (∀ p ∈ f.arg_types, p.1 ≠ "self")
    ∧ (∀ p ∈ f.defaults, p.1 ≠ "self") := by
  have hf2 : f ∈ (astWalk tree).filterMap toFuncInfo := by
    simpa [parse_python_ast] using hf
  rcases List.mem_filterMap.mp hf2 with ⟨s, _hs, hsf⟩
  cases s with
  | functionDef name args defaults body deco returns doc ln =>
    rw [toFuncInfo] at hsf
    injection hsf with hsf
    subst hsf
    refine ⟨?_, ?_, ?_⟩
    · intro hmem
      simp only [List.mem_map] at hmem
      rcases hmem with ⟨a, ha, haeq⟩
      have h2 := (List.mem_filter.mp ha).2
      rw [haeq] at h2
      simp at h2
    · intro p hp
      simp only [List.mem_filterMap] at hp
      rcases hp with ⟨a, _, hpa⟩
      by_cases hself : a.arg = "self"
      · rw [if_pos hself] at hpa
        cases hpa
      · rw [if_neg hself] at hpa
        cases hann : a.ann with
        | none => rw [hann] at hpa; cases hpa
        | some e =>
          rw [hann] at hpa
          injection hpa with hpa
          rw [← hpa]
          simpa using hself
    · intro p hp
      simp only [List.mem_filterMap] at hp
      rcases hp with ⟨q, _, hq⟩
      by_cases hself : q.1.arg = "self"
      · rw [if_pos hself] at hq
        cases hq
      · rw [if_neg hself] at hq
        injection hq with hq
        rw [← hq]
        simpa using hself
  | classDef nm body doc ln => simp [toFuncInfo] at hsf
  | importStmt names => simp [toFuncInfo] at hsf
  | importFrom m => simp [toFuncInfo] at hsf
  | otherStmt => simp [toFuncInfo] at hsf

/-- Witness for C9: the function `def method(a: int, self: int = 5): ...`
has a mid-position `self` parameter carrying both an annotation and a
default; the analyzed record excludes it everywhere. -/
theorem c9_self_excluded_witness :
    selfFi ∈ (parse_python_ast "s.py" selfTree).functions
    ∧ ("self" ∉ selfFi.args
        ∧ (∀ p ∈ selfFi.arg_types, p.1 ≠ "self")
        ∧ (∀ p ∈ selfFi.defaults, p.1 ≠ "self")) := by
  have hm : (parse_python_ast "s.py" selfTree).functions = [selfFi] := by
    simp [parse_python_ast, selfTree, astWalk, childStmts, toFuncInfo,
      extract_imports, importsOf, unparse, startsWithUnderscore, selfFi]
  have hmem : selfFi ∈ (parse_python_ast "s.py" selfTree).functions := by
    rw [hm]
    exact List.mem_singleton_self _
  exact ⟨hmem, c9_self_excluded "s.py" selfTree selfFi hmem⟩

/-- C1 counterexample: analyzing `class Calculator:` with the single method
`def add(self, a, b)` yields a class summary listing `add` as a class-owned
method, while the module-level function list also contains an entry named
`add` — the walk visits class bodies, so class-owned methods are
double-counted, contradicting the claim that they appear only in the class
summary. -/
theorem c1_counterexample :
    ((parse_python_ast "calc.py" calcTree).classes.map
        (fun c => c.methods.map (fun m => m.name))) = [["add"]]
    ∧ "add" ∈ ((parse_python_ast "calc.py" calcTree).functions.map
        (fun f => f.name)) := by
  constructor
  · simp [parse_python_ast, calcTree, astWalk, childStmts, toClassInfo,
      toMethodInfo, extract_imports, importsOf, startsWithUnderscore]
  · simp [parse_python_ast, calcTree, astWalk, childStmts, toFuncInfo,
      extract_imports, importsOf, startsWithUnderscore]

/-- C1 (amended): `ast.walk` visits every node including class bodies, so
every class-owned method recorded in a class summary is also collected as a
module-level function entry with the same name, parameter list and
visibility — class methods are double-counted, not kept apart. -/
theorem c1_methods_double_counted (file_path : String) (tree : List PyStmt)
    (c : ClassInfo) (hc : c ∈ (parse_python_ast file_path tree).classes)
    (m : MethodInfo) (hm : m ∈ c.methods) :
    ∃ f ∈ (parse_python_ast file_path tree).functions,
      f.name = m.name ∧ f.args = m.args ∧ f.is_private = m.is_private := by
  have hc2 : c ∈ (astWalk tree).filterMap toClassInfo := by
    simpa [parse_python_ast] using hc
  rcases List.mem_filterMap.mp hc2 with ⟨s, hsw, hsc⟩
  cases s with
  | classDef nm body doc ln =>
    rw [toClassInfo] at hsc
    injection hsc with hsc
    subst hsc
    simp only at hm
    rcases List.mem_filterMap.mp hm with ⟨item, hitem, hmi⟩
    cases item with
    | functionDef fn fargs fdefaults fbody fdeco fret fdoc fln =>
      rw [toMethodInfo] at hmi
      injection hmi with hmi
      subst hmi
      have hwalk : PyStmt.functionDef fn fargs fdefaults fbody fdeco fret fdoc fln
          ∈ astWalk tree := by
        apply childStmts_mem_astWalk tree _ hsw
        simpa [childStmts] using hitem
      simp only [parse_python_ast]
      exact ⟨_, List.mem_filterMap.mpr
        ⟨PyStmt.functionDef fn fargs fdefaults fbody fdeco fret fdoc fln,
          hwalk, rfl⟩, rfl, rfl, rfl⟩
    | classDef a b d e => simp [toMethodInfo] at hmi
    | importStmt a => simp [toMethodInfo] at hmi
    | importFrom a => simp [toMethodInfo] at hmi
    | otherStmt => simp [toMethodInfo] at hmi
  | functionDef a b d e f g i j => simp [toClassInfo] at hsc
  | importStmt a => simp [toClassInfo] at hsc
  | importFrom a => simp [toClassInfo] at hsc
  | otherStmt => simp [toClassInfo] at hsc

/-- Witness for C1 (amended): in the `Calculator` example the class summary
method `add` has a matching module-level function entry. -/
theorem c1_methods_double_counted_witness :
    ∃ c ∈ (parse_python_ast "calc.py" calcTree).classes,
      ∃ m ∈ c.methods,
        ∃ f ∈ (parse_python_ast "calc.py" calcTree).functions,
          f.name = m.name ∧ f.args = m.args ∧ f.is_private = m.is_private := by
  have hcls : (parse_python_ast "calc.py" calcTree).classes = [calcClassInfo] := by
    simp [parse_python_ast, calcTree, astWalk, childStmts, toClassInfo,
      toMethodInfo, extract_imports, importsOf, startsWithUnderscore,
      calcClassInfo, calcMethodAdd]
  have hc : calcClassInfo ∈ (parse_python_ast "calc.py" calcTree).classes := by
    rw [hcls]
    exact List.mem_singleton_self _
  have hmm : calcMethodAdd ∈ calcClassInfo.methods := List.mem_singleton_self _
  exact ⟨calcClassInfo, hc, calcMethodAdd, hmm,
    c1_methods_double_counted "calc.py" calcTree calcClassInfo hc
      calcMethodAdd hmm⟩

/-- Ground fact: `floatFi` is exactly the record the analyzer yields for
`def f(x: float): ...`. -/
theorem floatFi_from_parse :
    (parse_python_ast "f.py" floatTree).functions = [floatFi] := by
  simp [parse_python_ast, floatTree, astWalk, childStmts, toFuncInfo,
    extract_imports, importsOf, unparse, startsWithUnderscore, floatFi]

/-- C6 (amended): a second, distinctly named edge-cases test function is
rendered iff the signature carries at least one explicit parameter type
label; its commentary enumerates boundary classes only for the labels
`int` (zero/negative/large), `str` (empty/whitespace) and `list`
(empty/singleton) — parameters with any other label, `float` included,
contribute no commentary line — followed by the placeholder assertion. -/
theorem c6_edge_cases_iff_typed (fi : FuncInfo) :
    generate_test_code fi =
      spec_basic_test fi ++ (if fi.arg_types.isEmpty then "" else spec_edge_block fi)
    ∧ ("def test_" ++ fi.name ++ "_edge_cases():")
        ≠ ("def test_" ++ fi.name ++ "_basic():") := by
  refine ⟨generate_test_code_structure fi, fun heq => ?_⟩
  have hlen := congrArg String.length heq
  rw [String.length_append, String.length_append, String.length_append,
    String.length_append] at hlen
  have h1 : ("_edge_cases():").length = 14 := rfl
  have h2 : ("_basic():").length = 9 := rfl
  omega

set_option maxRecDepth 10000 in
/-- C6 counterexample: for `def f(x: float): ...` the parameter `x` carries
the explicit numeric type label `float`, so the edge-cases function is
rendered, yet it contains no commentary line for `x` at all (no `# x`
occurrence) — the claimed zero/negative/large enumeration for numeric
parameters is absent. -/
theorem c6_counterexample :
    (("def test_f_edge_cases():").data <:+: (generate_test_code floatFi).data)
    ∧ ¬ (("# x").data <:+: (generate_test_code floatFi).data) :=
  ⟨by decide, by decide⟩
